import Mathlib

/-!
# Verification of the career-recommendation engine

Shallow embedding, in Lean 4, of the scoring, ranking, explanation and
analytics procedures of the career-recommendation repository
(`recommender/career_matcher.py`, `explainer.py`, `skills_gap_analyzer.py`,
`career_comparison.py`, `career_simulation.py`, `failure_warning_system.py`,
`role_model_service.py`, `personality_test.py`), together with proofs of the
behavioural properties stated in the specification.

Conventions used throughout:
* Python numbers are embedded as exact rationals (`ℚ`) or integers (`ℤ`);
  the arithmetic of the source involves only `+ - * /`, `max`, `min`,
  truncation `int(...)` and `round(...)`, all of which are exact on `ℚ`.
* Python sets are embedded as `List.toFinset`; Python `list(set(..))`
  produces a list in unspecified (hash-dependent) order, and every place the
  source consumes such a list it only tests membership, so `List.dedup`
  is an order-irrelevant faithful stand-in.
* Python's `list.sort` / `sorted` is a *stable* sort; a stable sort's output
  is uniquely determined by the comparison and the input order, so it is
  embedded as `List.mergeSort` (itself stable) with `le a b = key a ≤ key b`
  for ascending and `le a b = key b ≤ key a` for `reverse=True`.
* Fallible code (`KeyError`, `ZeroDivisionError`, `IndexError`, `except`)
  is embedded with `Option`.
-/

/-! ## Python numeric primitives -/

/-- Python `int(q)`: truncation toward zero. -/
def pyInt (q : ℚ) : ℤ := if q < 0 then ⌈q⌉ else ⌊q⌋

/-- Python `round(q)` (banker's rounding): nearest integer, ties to even. -/
def pyRoundInt (q : ℚ) : ℤ :=
  let f : ℤ := ⌊q⌋
  let r : ℚ := q - f
  if r < 1/2 then f
  else if 1/2 < r then f + 1
  else if f % 2 = 0 then f else f + 1

/-- Python `round(q, 1)`: one decimal digit, ties to even (exact on `ℚ`). -/
def pyRound1 (q : ℚ) : ℚ := (pyRoundInt (10 * q) : ℚ) / 10

/-- Python `round(q, 2)`: two decimal digits, ties to even (exact on `ℚ`). -/
def pyRound2 (q : ℚ) : ℚ := (pyRoundInt (100 * q) : ℚ) / 100

/-- Python `needle in haystack` on strings (substring containment). -/
def strContains (needle haystack : String) : Bool :=
  decide (List.IsInfix needle.toList haystack.toList)

/-! ## Data model: careers and user profiles (`career_matcher.py`) -/

/-- A career record (the fields consumed by the scoring code). -/
structure Career where
  name : String
  required_skills : List String
  interests : List String
  subjects : List String
  personality_traits : List String
deriving DecidableEq, Repr

/-- One mode's `assessment_weight` vector from `ModeConfig`. -/
structure ModeWeights where
  interests : ℚ
  subjects : ℚ
  skills : ℚ
  personality : ℚ
deriving DecidableEq, Repr

/-- `mode_config["modes"]["student"]["assessment_weight"]` (default config). -/
def studentWeights : ModeWeights :=
  { interests := 0.45, subjects := 0.25, skills := 0.20, personality := 0.10 }

/-- `mode_config["modes"]["professional"]["assessment_weight"]` (default config). -/
def professionalWeights : ModeWeights :=
  { interests := 0.30, subjects := 0.10, skills := 0.40, personality := 0.20 }

/-- The user profile produced by `CareerMatcher._create_user_profile`.
`personalityTraits` embeds `user_profile["personality"].get("traits", [])`,
the only part of the `personality` mapping the scorer reads. -/
structure UserProfile where
  interests : List String
  skills : List String
  subjects : List String
  personalityTraits : List String
  experience_level : Option String
  mode : String
deriving DecidableEq, Repr

/-- `CareerMatcher._create_user_profile`: augments the user's skills with the
skills derived from subjects via the `subjects_to_skills` table and removes
duplicates (`list(set(...))`; downstream code only tests membership, so
`dedup` order is immaterial). -/
def create_user_profile (subjects_to_skills : List (String × List String))
    (interests skills subjects personalityTraits : List String)
    (experience_level : Option String) (mode : String) : UserProfile :=
  let derived_skills := (subjects.map
    (fun subject => (subjects_to_skills.lookup subject).getD [])).flatten
  { interests := interests
    skills := (skills ++ derived_skills).dedup
    subjects := subjects
    personalityTraits := personalityTraits
    experience_level := experience_level
    mode := mode }

/-- Interest sub-score of `_calculate_match_score`:
`len(set(profile.interests) & set(career.interests)) / max(len(career.interests), 1)`. -/
def interest_score (profile : UserProfile) (career : Career) : ℚ :=
  ((profile.interests.toFinset ∩ career.interests.toFinset).card : ℚ) /
    ((max career.interests.length 1 : ℕ) : ℚ)

/-- Skills sub-score of `_calculate_match_score`. -/
def skill_score (profile : UserProfile) (career : Career) : ℚ :=
  ((profile.skills.toFinset ∩ career.required_skills.toFinset).card : ℚ) /
    ((max career.required_skills.length 1 : ℕ) : ℚ)

/-- Subject sub-score of `_calculate_match_score`:
`subject_match / max(len(career.subjects), 1) if career.subjects else 0`. -/
def subject_score (profile : UserProfile) (career : Career) : ℚ :=
  if career.subjects.isEmpty then 0
  else ((profile.subjects.toFinset ∩ career.subjects.toFinset).card : ℚ) /
    ((max career.subjects.length 1 : ℕ) : ℚ)

/-- Personality sub-score of `_calculate_match_score`. -/
def personality_score (profile : UserProfile) (career : Career) : ℚ :=
  ((profile.personalityTraits.toFinset ∩ career.personality_traits.toFinset).card : ℚ) /
    ((max career.personality_traits.length 1 : ℕ) : ℚ)

/-- `CareerMatcher._adjust_for_experience`: the professional-mode
experience-adjustment hook, a no-op in the reference behaviour. -/
def adjust_for_experience (base_score : ℚ) (_experience_level : String)
    (_career : Career) : ℚ :=
  base_score

/-- `CareerMatcher._calculate_match_score`: weighted sum of the four dimension
sub-scores, plus the professional-mode experience hook (Python's
`user_profile.get('experience_level')` truthiness: `None` and `""` falsy). -/
def calculate_match_score (weights : ModeWeights) (profile : UserProfile)
    (career : Career) : ℚ :=
  let score :=
    interest_score profile career * weights.interests +
    skill_score profile career * weights.skills +
    subject_score profile career * weights.subjects +
    personality_score profile career * weights.personality
  if profile.mode = "professional" then
    match profile.experience_level with
    | some e => if e ≠ "" then adjust_for_experience score e career else score
    | none => score
  else score

/-! ## C1: the match score lies in `[0, 1]` -/

theorem inter_card_le_max_length (a b : List String) :
    ((a.toFinset ∩ b.toFinset).card : ℚ) ≤ ((max b.length 1 : ℕ) : ℚ) := by
  have h1 : (a.toFinset ∩ b.toFinset).card ≤ b.toFinset.card :=
    Finset.card_le_card Finset.inter_subset_right
  have h2 : b.toFinset.card ≤ b.length := b.toFinset_card_le
  have h3 : (a.toFinset ∩ b.toFinset).card ≤ max b.length 1 :=
    le_trans (le_trans h1 h2) (Nat.le_max_left _ _)
  exact_mod_cast h3

theorem coverage_score_nonneg (a b : List String) :
    0 ≤ ((a.toFinset ∩ b.toFinset).card : ℚ) / ((max b.length 1 : ℕ) : ℚ) := by
  apply div_nonneg <;> positivity

theorem coverage_score_le_one (a b : List String) :
    ((a.toFinset ∩ b.toFinset).card : ℚ) / ((max b.length 1 : ℕ) : ℚ) ≤ 1 := by
  rw [div_le_one (by exact_mod_cast Nat.lt_of_lt_of_le Nat.zero_lt_one (Nat.le_max_right _ _))]
  exact inter_card_le_max_length a b

theorem interest_score_mem (p : UserProfile) (c : Career) :
    0 ≤ interest_score p c ∧ interest_score p c ≤ 1 :=
  ⟨coverage_score_nonneg _ _, coverage_score_le_one _ _⟩

theorem skill_score_mem (p : UserProfile) (c : Career) :
    0 ≤ skill_score p c ∧ skill_score p c ≤ 1 :=
  ⟨coverage_score_nonneg _ _, coverage_score_le_one _ _⟩

theorem subject_score_mem (p : UserProfile) (c : Career) :
    0 ≤ subject_score p c ∧ subject_score p c ≤ 1 := by
  unfold subject_score
  split
  · exact ⟨le_refl 0, zero_le_one⟩
  · exact ⟨coverage_score_nonneg _ _, coverage_score_le_one _ _⟩

theorem personality_score_mem (p : UserProfile) (c : Career) :
    0 ≤ personality_score p c ∧ personality_score p c ≤ 1 :=
  ⟨coverage_score_nonneg _ _, coverage_score_le_one _ _⟩

/-- C1. For every user profile and every career, if the four dimension
weights of the selected mode are non-negative (they are weights) and sum to
`1.0`, then the `MatchScorer` score `CareerMatcher._calculate_match_score`
lies in the closed interval `[0, 1]`. -/
theorem calculate_match_score_mem_unit_interval (w : ModeWeights)
    (p : UserProfile) (c : Career)
    (hi : 0 ≤ w.interests) (hsu : 0 ≤ w.subjects) (hsk : 0 ≤ w.skills)
    (hp : 0 ≤ w.personality)
    (hsum : w.interests + w.subjects + w.skills + w.personality = 1) :
    0 ≤ calculate_match_score w p c ∧ calculate_match_score w p c ≤ 1 := by
  obtain ⟨hi0, hi1⟩ := interest_score_mem p c
  obtain ⟨hk0, hk1⟩ := skill_score_mem p c
  obtain ⟨hu0, hu1⟩ := subject_score_mem p c
  obtain ⟨hp0, hp1⟩ := personality_score_mem p c
  have key : 0 ≤ interest_score p c * w.interests + skill_score p c * w.skills +
      subject_score p c * w.subjects + personality_score p c * w.personality ∧
      interest_score p c * w.interests + skill_score p c * w.skills +
      subject_score p c * w.subjects + personality_score p c * w.personality ≤ 1 := by
    constructor
    · have := mul_nonneg hi0 hi
      have := mul_nonneg hk0 hsk
      have := mul_nonneg hu0 hsu
      have := mul_nonneg hp0 hp
      linarith
    · have h1 : interest_score p c * w.interests ≤ w.interests := by
        nlinarith
      have h2 : skill_score p c * w.skills ≤ w.skills := by
        nlinarith
      have h3 : subject_score p c * w.subjects ≤ w.subjects := by
        nlinarith
      have h4 : personality_score p c * w.personality ≤ w.personality := by
        nlinarith
      linarith
  unfold calculate_match_score adjust_for_experience
  split
  · match p.experience_level with
    | some e =>
      simp only
      split <;> exact key
    | none => exact key
  · exact key

/-- Witness for C1 at a concrete mode, profile and career. -/
theorem calculate_match_score_mem_unit_interval_witness :
    (0 ≤ studentWeights.interests ∧ 0 ≤ studentWeights.subjects ∧
      0 ≤ studentWeights.skills ∧ 0 ≤ studentWeights.personality ∧
      studentWeights.interests + studentWeights.subjects +
        studentWeights.skills + studentWeights.personality = 1) ∧
    (0 ≤ calculate_match_score studentWeights
        (create_user_profile [("computer_science", ["programming"])]
          ["technology"] ["programming"] ["computer_science"] ["analytical"]
          none "student")
        { name := "Software Engineer"
          required_skills := ["programming", "problem_solving"]
          interests := ["technology", "innovation"]
          subjects := ["computer_science"]
          personality_traits := ["analytical"] } ∧
      calculate_match_score studentWeights
        (create_user_profile [("computer_science", ["programming"])]
          ["technology"] ["programming"] ["computer_science"] ["analytical"]
          none "student")
        { name := "Software Engineer"
          required_skills := ["programming", "problem_solving"]
          interests := ["technology", "innovation"]
          subjects := ["computer_science"]
          personality_traits := ["analytical"] } ≤ 1) :=
  ⟨⟨by norm_num [studentWeights], by norm_num [studentWeights],
    by norm_num [studentWeights], by norm_num [studentWeights],
    by norm_num [studentWeights]⟩,
   calculate_match_score_mem_unit_interval studentWeights _ _
    (by norm_num [studentWeights]) (by norm_num [studentWeights])
    (by norm_num [studentWeights]) (by norm_num [studentWeights])
    (by norm_num [studentWeights])⟩

/-! ## Explanation generator (`explainer.py`)

`RecommendationExplainer` recomputes the four set intersections from the raw
request payload. Unlike the scorer, its denominators are the cardinalities of
the career's *sets* (`len(career_interests)` where `career_interests` is a
`set`). The human-readable `reasons` strings and the `gaps`/`strengths`
lists (iterated from Python sets in hash order) are presentation-only and no
claim touches them, so only the numeric `score` fields are embedded. -/

/-- The raw user payload (`user_data`), with the `.get(..., default)`
defaults already applied. -/
structure UserData where
  interests : List String
  skills : List String
  subjects : List String
  personalityTraits : List String
deriving DecidableEq, Repr

/-- Score of `RecommendationExplainer._explain_interests_match`. -/
def explain_interests_score (career : Career) (user_interests : List String) : ℚ :=
  ((career.interests.toFinset ∩ user_interests.toFinset).card : ℚ) /
    ((max career.interests.toFinset.card 1 : ℕ) : ℚ)

/-- Score of `RecommendationExplainer._explain_skills_match`. -/
def explain_skills_score (career : Career) (user_skills : List String) : ℚ :=
  ((career.required_skills.toFinset ∩ user_skills.toFinset).card : ℚ) /
    ((max career.required_skills.toFinset.card 1 : ℕ) : ℚ)

/-- Score of `RecommendationExplainer._explain_subjects_match`:
`len(matched)/max(len(career_subjects), 1) if career_subjects else 0.5`,
the truthiness test being on the career's subject *set*. -/
def explain_subjects_score (career : Career) (user_subjects : List String) : ℚ :=
  if career.subjects.toFinset = ∅ then 0.5
  else ((career.subjects.toFinset ∩ user_subjects.toFinset).card : ℚ) /
    ((max career.subjects.toFinset.card 1 : ℕ) : ℚ)

/-- Score of `RecommendationExplainer._explain_personality_match`. -/
def explain_personality_score (career : Career) (user_traits : List String) : ℚ :=
  ((career.personality_traits.toFinset ∩ user_traits.toFinset).card : ℚ) /
    ((max career.personality_traits.toFinset.card 1 : ℕ) : ℚ)

/-- The numeric part of the explanation record. -/
structure Explanation where
  overall_match : ℤ
deriving DecidableEq, Repr

/-- `RecommendationExplainer.explain_recommendation`:
`overall_match = int(total_score * 100)` with the fixed weights
`0.4 / 0.35 / 0.15 / 0.1` (there is no mode input at all). -/
def explain_recommendation (career : Career) (user : UserData) : Explanation :=
  let total_score :=
    explain_interests_score career user.interests * 0.4 +
    explain_skills_score career user.skills * 0.35 +
    explain_subjects_score career user.subjects * 0.15 +
    explain_personality_score career user.personalityTraits * 0.1
  { overall_match := pyInt (total_score * 100) }

/-- The overall match as the specification words it (refinement target):
`round(100 × (0.4·interests + 0.35·skills + 0.15·subjects + 0.1·traits))`. -/
def spec_overall_match (career : Career) (user : UserData) : ℤ :=
  pyRoundInt (100 * (0.4 * explain_interests_score career user.interests +
    0.35 * explain_skills_score career user.skills +
    0.15 * explain_subjects_score career user.subjects +
    0.1 * explain_personality_score career user.personalityTraits))

/-! ## C2: the empty-subjects default -/

/-- C2, counterexample. In the match scorer itself a career with an empty
subjects list contributes a subject sub-score of `0`, not the claimed `0.5`:
evaluated at a concrete profile and a concrete career with `subjects = []`. -/
theorem subject_score_empty_subjects_not_half :
    subject_score
      { interests := ["technology"], skills := ["programming"],
        subjects := ["mathematics"], personalityTraits := ["analytical"],
        experience_level := none, mode := "student" }
      { name := "Freelancer", required_skills := ["communication"],
        interests := ["independence"], subjects := [],
        personality_traits := ["adaptable"] } ≠ 1/2 := by
  norm_num [subject_score]

/-- C2, amended. For a career that declares an empty subjects list the
*scorer* (`_calculate_match_score`) gives the subjects dimension `0`, while
the lenient `0.5` default is applied by the *explainer*
(`_explain_subjects_match`); any other dimension the career leaves empty
scores `0` in the scorer via the denominator defaulted to 1. -/
theorem empty_subjects_default_scores (p : UserProfile) (c : Career)
    (user_subjects : List String) (h : c.subjects = []) :
    subject_score p c = 0 ∧
    explain_subjects_score c user_subjects = 1/2 ∧
    (c.interests = [] → interest_score p c = 0) ∧
    (c.required_skills = [] → skill_score p c = 0) ∧
    (c.personality_traits = [] → personality_score p c = 0) := by
  refine ⟨?_, ?_, ?_, ?_, ?_⟩
  · simp [subject_score, h]
  · simp [explain_subjects_score, h]
    norm_num
  · intro hi
    simp [interest_score, hi]
  · intro hk
    simp [skill_score, hk]
  · intro hp
    simp [personality_score, hp]

/-- Witness for the amended C2 at a concrete profile and career. -/
theorem empty_subjects_default_scores_witness :
    subject_score
      { interests := ["technology"], skills := [], subjects := ["art"],
        personalityTraits := [], experience_level := none, mode := "student" }
      { name := "Freelancer", required_skills := [], interests := [],
        subjects := [], personality_traits := [] } = 0 ∧
    explain_subjects_score
      { name := "Freelancer", required_skills := [], interests := [],
        subjects := [], personality_traits := [] } ["art"] = 1/2 ∧
    interest_score
      { interests := ["technology"], skills := [], subjects := ["art"],
        personalityTraits := [], experience_level := none, mode := "student" }
      { name := "Freelancer", required_skills := [], interests := [],
        subjects := [], personality_traits := [] } = 0 := by
  obtain ⟨h1, h2, h3, _, _⟩ := empty_subjects_default_scores
    { interests := ["technology"], skills := [], subjects := ["art"],
      personalityTraits := [], experience_level := none, mode := "student" }
    { name := "Freelancer", required_skills := [], interests := [],
      subjects := [], personality_traits := [] } ["art"] rfl
  exact ⟨h1, h2, h3 rfl⟩

/-! ## C4: the explainer's overall match percentage -/

/-- C4, counterexample. At a career with interests `{a, b, c}` of which the
user matches two (all other dimensions zero), the code computes
`int(100 · 0.4 · 2/3) = 26` while the claimed
`round(100 · 0.4 · 2/3) = 27`; `explain_recommendation` truncates, it does
not round. -/
theorem overall_match_truncates_not_rounds :
    (explain_recommendation
        { name := "Painter", required_skills := ["x"],
          interests := ["a", "b", "c"], subjects := ["m"],
          personality_traits := ["t"] }
        { interests := ["a", "b"], skills := [], subjects := [],
          personalityTraits := [] }).overall_match = 26 ∧
    spec_overall_match
        { name := "Painter", required_skills := ["x"],
          interests := ["a", "b", "c"], subjects := ["m"],
          personality_traits := ["t"] }
        { interests := ["a", "b"], skills := [], subjects := [],
          personalityTraits := [] } = 27 := by
  have hi : explain_interests_score
      { name := "Painter", required_skills := ["x"],
        interests := ["a", "b", "c"], subjects := ["m"],
        personality_traits := ["t"] } ["a", "b"] = 2/3 := by
    rw [explain_interests_score]
    rw [show ((["a", "b", "c"] : List String).toFinset ∩
        (["a", "b"] : List String).toFinset).card = 2 from by decide]
    rw [show max ((["a", "b", "c"] : List String).toFinset.card) 1 = 3 from by decide]
    norm_num
  have hk : explain_skills_score
      { name := "Painter", required_skills := ["x"],
        interests := ["a", "b", "c"], subjects := ["m"],
        personality_traits := ["t"] } [] = 0 := by
    rw [explain_skills_score]
    rw [show ((["x"] : List String).toFinset ∩
        (([] : List String)).toFinset).card = 0 from by decide]
    norm_num
  have hs : explain_subjects_score
      { name := "Painter", required_skills := ["x"],
        interests := ["a", "b", "c"], subjects := ["m"],
        personality_traits := ["t"] } [] = 0 := by
    rw [explain_subjects_score]
    rw [if_neg (by decide)]
    rw [show ((["m"] : List String).toFinset ∩
        (([] : List String)).toFinset).card = 0 from by decide]
    norm_num
  have hp : explain_personality_score
      { name := "Painter", required_skills := ["x"],
        interests := ["a", "b", "c"], subjects := ["m"],
        personality_traits := ["t"] } [] = 0 := by
    rw [explain_personality_score]
    rw [show ((["t"] : List String).toFinset ∩
        (([] : List String)).toFinset).card = 0 from by decide]
    norm_num
  constructor
  · simp only [explain_recommendation, hi, hk, hs, hp]
    norm_num [pyInt]
  · rw [spec_overall_match, hi, hk, hs, hp]
    norm_num [pyRoundInt]

/-- C4, amended. For every career and raw user payload the explainer's
`overall_match` equals the *truncation toward zero* (Python `int`) of
`100 ×` the fixed-weight sum `0.4·interests + 0.35·skills + 0.15·subjects +
0.1·personality-traits`, where each coverage is
`|career_set ∩ user_set| / max(|career_set|, 1)` (subjects defaulting to
`0.5` on an empty career subject set); the weights are fixed and there is no
mode input. -/
theorem overall_match_eq_trunc_fixed_weights (career : Career) (user : UserData) :
    (explain_recommendation career user).overall_match =
      pyInt ((explain_interests_score career user.interests * 0.4 +
        explain_skills_score career user.skills * 0.35 +
        explain_subjects_score career user.subjects * 0.15 +
        explain_personality_score career user.personalityTraits * 0.1) * 100) :=
  rfl

/-! ## Ranker (`CareerMatcher.get_recommendations`)

Python's `career_scores.sort(key=lambda x: x[1], reverse=True)` is a *stable*
sort; a stable sort's output is uniquely determined by the comparison and
the input order, so it is embedded by the stable `List.mergeSort` with
`le a b ↔ key b ≤ key a` (equal keys compare `true`, preserving input order). -/

/-- Stable descending sort by a rational key (`sort(key=..., reverse=True)`). -/
def sortByScoreDesc {α : Type} (key : α → ℚ) (l : List α) : List α :=
  l.mergeSort (fun a b => decide (key b ≤ key a))

theorem sortByScoreDesc_perm {α : Type} (key : α → ℚ) (l : List α) :
    (sortByScoreDesc key l).Perm l :=
  List.mergeSort_perm l _

theorem sortByScoreDesc_sorted {α : Type} (key : α → ℚ) (l : List α) :
    (sortByScoreDesc key l).Pairwise (fun a b => key b ≤ key a) := by
  have htrans : ∀ a b c : α, decide (key b ≤ key a) = true →
      decide (key c ≤ key b) = true → decide (key c ≤ key a) = true := by
    intro a b c hab hbc
    simp only [decide_eq_true_eq] at hab hbc ⊢
    exact le_trans hbc hab
  have htotal : ∀ a b : α,
      (decide (key b ≤ key a) || decide (key a ≤ key b)) = true := by
    intro a b
    simp only [Bool.or_eq_true, decide_eq_true_eq]
    exact le_total (key b) (key a)
  have h := List.sorted_mergeSort htrans htotal l
  exact h.imp (by intro a b hab; exact decide_eq_true_eq.mp hab)

/-- Stability of the descending sort: the elements carrying any fixed key
value appear in exactly the same order as in the input. -/
theorem sortByScoreDesc_filter_eq {α : Type} (key : α → ℚ) (l : List α) (s : ℚ) :
    (sortByScoreDesc key l).filter (fun a => decide (key a = s)) =
      l.filter (fun a => decide (key a = s)) := by
  have htrans : ∀ a b c : α, decide (key b ≤ key a) = true →
      decide (key c ≤ key b) = true → decide (key c ≤ key a) = true := by
    intro a b c hab hbc
    simp only [decide_eq_true_eq] at hab hbc ⊢
    exact le_trans hbc hab
  have htotal : ∀ a b : α,
      (decide (key b ≤ key a) || decide (key a ≤ key b)) = true := by
    intro a b
    simp only [Bool.or_eq_true, decide_eq_true_eq]
    exact le_total (key b) (key a)
  have hpairf : (l.filter (fun a => decide (key a = s))).Pairwise
      (fun a b => decide (key b ≤ key a) = true) := by
    apply List.pairwise_of_forall_mem_list
    intro a ha b hb
    have ha2 := (List.mem_filter.mp ha).2
    have hb2 := (List.mem_filter.mp hb).2
    simp only [decide_eq_true_eq] at ha2 hb2 ⊢
    rw [ha2, hb2]
  have hsub2 : List.Sublist (l.filter (fun a => decide (key a = s)))
      (sortByScoreDesc key l) :=
    List.sublist_mergeSort htrans htotal hpairf (List.filter_sublist l)
  have hself : (l.filter (fun a => decide (key a = s))).filter
      (fun a => decide (key a = s)) = l.filter (fun a => decide (key a = s)) :=
    List.filter_eq_self.mpr (fun a ha => (List.mem_filter.mp ha).2)
  have hsub3 : List.Sublist (l.filter (fun a => decide (key a = s)))
      ((sortByScoreDesc key l).filter (fun a => decide (key a = s))) := by
    have := hsub2.filter (fun a => decide (key a = s))
    rwa [hself] at this
  have hlen : (l.filter (fun a => decide (key a = s))).length =
      ((sortByScoreDesc key l).filter (fun a => decide (key a = s))).length := by
    rw [← List.countP_eq_length_filter, ← List.countP_eq_length_filter]
    exact ((sortByScoreDesc_perm key l).countP_eq _).symm
  exact (hsub3.eq_of_length hlen).symm

/-- `CareerMatcher.get_recommendations`: score every career in the loaded
table against the profile built from the raw inputs, sort by score
descending (stable) and return the first five careers. -/
def get_recommendations (weights : ModeWeights)
    (subjects_to_skills : List (String × List String)) (careers_data : List Career)
    (interests skills subjects personalityTraits : List String)
    (experience_level : Option String) (mode : String) : List Career :=
  let user_profile := create_user_profile subjects_to_skills interests skills
    subjects personalityTraits experience_level mode
  let career_scores := careers_data.map
    (fun career => (career, calculate_match_score weights user_profile career))
  let sorted := sortByScoreDesc (fun x => x.2) career_scores
  (sorted.take 5).map Prod.fst

/-- C3. `get_recommendations` returns at most 5 careers and equals the
5-element prefix of a list `full` that is a permutation of the input career
list, is ordered by match score descending, and preserves the input's
relative order among equal-scored careers (the score-`s` fibre of `full`
equals that of the input, for every `s`). -/
theorem get_recommendations_top5_sorted_stable (w : ModeWeights)
    (t : List (String × List String)) (cd : List Career)
    (i k su pt : List String) (e : Option String) (m : String) :
    (get_recommendations w t cd i k su pt e m).length ≤ 5 ∧
    ∃ full : List Career,
      full.Perm cd ∧
      full.Pairwise (fun a b =>
        calculate_match_score w (create_user_profile t i k su pt e m) b ≤
          calculate_match_score w (create_user_profile t i k su pt e m) a) ∧
      get_recommendations w t cd i k su pt e m = full.take 5 ∧
      ∀ s : ℚ,
        full.filter (fun c => decide
          (calculate_match_score w (create_user_profile t i k su pt e m) c = s)) =
        cd.filter (fun c => decide
          (calculate_match_score w (create_user_profile t i k su pt e m) c = s)) := by
  set score : Career → ℚ :=
    fun c => calculate_match_score w (create_user_profile t i k su pt e m) c with hscore
  set pairs : List (Career × ℚ) := cd.map (fun c => (c, score c)) with hpairs
  set sorted : List (Career × ℚ) := sortByScoreDesc (fun x => x.2) pairs with hsorted
  have hmem : ∀ x ∈ sorted, x.2 = score x.1 := by
    intro x hx
    have hx2 : x ∈ pairs := (sortByScoreDesc_perm (fun x => x.2) pairs).mem_iff.mp hx
    rw [hpairs] at hx2
    obtain ⟨c, _, rfl⟩ := List.mem_map.mp hx2
    rfl
  have hrec : get_recommendations w t cd i k su pt e m =
      (sorted.map Prod.fst).take 5 := by
    rw [get_recommendations, ← List.map_take]
  have hfullperm : (sorted.map Prod.fst).Perm cd := by
    have h1 : (sorted.map Prod.fst).Perm (pairs.map Prod.fst) :=
      (sortByScoreDesc_perm (fun x => x.2) pairs).map Prod.fst
    have h2 : pairs.map Prod.fst = cd := by
      rw [hpairs, List.map_map]
      exact List.map_id cd
    rwa [h2] at h1
  refine ⟨?_, sorted.map Prod.fst, hfullperm, ?_, hrec, ?_⟩
  · rw [hrec]
    exact le_trans (List.length_take_le 5 _) (le_refl 5)
  · rw [List.pairwise_map]
    have hs := sortByScoreDesc_sorted (fun x => x.2) pairs
    refine List.Pairwise.imp_of_mem ?_ hs
    intro a b ha hb hab
    have h2 := hab
    rw [hmem a ha, hmem b hb] at h2
    exact h2
  · intro s
    have e1 : (sorted.map Prod.fst).filter (fun c => decide (score c = s)) =
        (sorted.filter (fun x => decide (score x.1 = s))).map Prod.fst := by
      rw [List.filter_map]
      rfl
    have e2 : sorted.filter (fun x => decide (score x.1 = s)) =
        sorted.filter (fun x => decide (x.2 = s)) := by
      apply List.filter_congr
      intro x hx
      rw [hmem x hx]
    have e3 : sorted.filter (fun x => decide (x.2 = s)) =
        pairs.filter (fun x => decide (x.2 = s)) :=
      sortByScoreDesc_filter_eq (fun x => x.2) pairs s
    have e4 : pairs.filter (fun x => decide (x.2 = s)) =
        (cd.filter (fun c => decide (score c = s))).map (fun c => (c, score c)) := by
      rw [hpairs, List.filter_map]
      rfl
    rw [e1, e2, e3, e4, List.map_map]
    exact List.map_id _

/-! ## Skills gap analyzer (`skills_gap_analyzer.py`) -/

/-- Python `s.lower()`, character-wise (`Char.toLower` is ASCII lowering,
which coincides with Python's on the ASCII reference data). -/
def strLower (s : String) : String :=
  String.mk (s.toList.map Char.toLower)

/-- `skill.lower().replace(' ', '_')`. A single-character `str.replace` is a
character-wise substitution. -/
def normalizeSkill (skill : String) : String :=
  String.mk ((strLower skill).toList.map (fun c => if c = ' ' then '_' else c))

/-- `SkillsGapAnalyzer._derive_skills_from_subjects`. -/
def derive_skills_from_subjects (subjects_to_skills : List (String × List String))
    (subjects : List String) : List String :=
  (subjects.map (fun subject =>
    (subjects_to_skills.lookup (normalizeSkill subject)).getD [])).flatten

/-- The normalized, subject-augmented, deduplicated user skill list
(`user_skills_normalized` as of line 115 of the source; Python's
`list(set(...))` order is hash-dependent and only membership is consumed,
so `dedup` is a faithful stand-in). `user_subjects` is optional and Python
`if user_subjects:` is falsy on both `None` and `[]`. -/
def augmented_user_skills (subjects_to_skills : List (String × List String))
    (user_skills : List String) (user_subjects : Option (List String)) :
    List String :=
  let user_skills_normalized := user_skills.map normalizeSkill
  let user_skills_normalized :=
    match user_subjects with
    | some subs =>
      if subs.isEmpty then user_skills_normalized
      else user_skills_normalized ++ derive_skills_from_subjects subjects_to_skills subs
    | none => user_skills_normalized
  user_skills_normalized.dedup

/-- The fields of the gap-analysis record the verified claims consume.
The categorisation, priorities, learning path, time estimate, readiness
level, next steps and development plan are further derivations from
`missing_skills` that no claim touches and are omitted here. -/
structure GapAnalysis where
  career_name : String
  skill_match_percentage : ℚ
  current_skills : List String
  current_count : ℕ
  missing_skills : List String
  missing_count : ℕ
deriving DecidableEq, Repr

/-- `SkillsGapAnalyzer.analyze_skills_gap`: normalizes both skill lists,
augments the user's with subject-derived skills, splits the required list
into present/missing and computes the match percentage
(`round(len(current)/len(required)*100, 1)`, or `100` when the career
requires nothing). The `career_requirements` dict is passed as its
consumed fields (`name`, `required_skills`). -/
def analyze_skills_gap (subjects_to_skills : List (String × List String))
    (user_skills : List String) (career_name : String)
    (required_skills_raw : List String) (user_subjects : Option (List String)) :
    GapAnalysis :=
  let required_skills := required_skills_raw.map normalizeSkill
  let user_set := augmented_user_skills subjects_to_skills user_skills user_subjects
  let current_skills := required_skills.filter (fun s => decide (s ∈ user_set))
  let missing_skills := required_skills.filter (fun s => decide (¬ s ∈ user_set))
  let pct : ℚ := if required_skills.isEmpty then 100
    else (current_skills.length : ℚ) / (required_skills.length : ℚ) * 100
  { career_name := career_name
    skill_match_percentage := pyRound1 pct
    current_skills := current_skills
    current_count := current_skills.length
    missing_skills := missing_skills
    missing_count := missing_skills.length }

theorem pyRoundInt_intCast (n : ℤ) : pyRoundInt (n : ℚ) = n := by
  simp [pyRoundInt]

theorem pyRound1_natCast (n : ℕ) : pyRound1 (n : ℚ) = n := by
  rw [pyRound1, show ((10 : ℚ) * n) = (((10 * n : ℕ) : ℤ) : ℚ) by push_cast; ring,
    pyRoundInt_intCast]
  push_cast
  ring

/-- C5. `analyze_skills_gap` splits the normalized required skill list into
`current_skills` and `missing_skills`: as sets they are disjoint and their
union is the normalized required set; the match percentage is `100`
whenever the (subject-augmented, normalized) user skills contain every
required skill, and `0` whenever they are disjoint from a non-empty
required set. -/
theorem analyze_skills_gap_partition_and_percentage
    (t : List (String × List String)) (us : List String) (cn : String)
    (req : List String) (subs : Option (List String)) :
    (analyze_skills_gap t us cn req subs).current_skills.toFinset ∪
        (analyze_skills_gap t us cn req subs).missing_skills.toFinset =
      (req.map normalizeSkill).toFinset ∧
    Disjoint (analyze_skills_gap t us cn req subs).current_skills.toFinset
      (analyze_skills_gap t us cn req subs).missing_skills.toFinset ∧
    ((req.map normalizeSkill).toFinset ⊆
        (augmented_user_skills t us subs).toFinset →
      (analyze_skills_gap t us cn req subs).skill_match_percentage = 100) ∧
    (Disjoint (req.map normalizeSkill).toFinset
        (augmented_user_skills t us subs).toFinset → req ≠ [] →
      (analyze_skills_gap t us cn req subs).skill_match_percentage = 0) := by
  refine ⟨?_, ?_, ?_, ?_⟩
  · ext a
    simp only [analyze_skills_gap, Finset.mem_union, List.mem_toFinset,
      List.mem_filter, decide_eq_true_eq]
    tauto
  · rw [Finset.disjoint_left]
    intro a ha hb
    simp only [analyze_skills_gap, List.mem_toFinset, List.mem_filter,
      decide_eq_true_eq] at ha hb
    exact hb.2 ha.2
  · intro hsub
    have hall : ∀ s ∈ req.map normalizeSkill,
        s ∈ augmented_user_skills t us subs := by
      intro s hs
      exact List.mem_toFinset.mp (hsub (List.mem_toFinset.mpr hs))
    simp only [analyze_skills_gap]
    rcases Decidable.em ((req.map normalizeSkill).isEmpty = true) with he | he
    · rw [if_pos he]
      exact_mod_cast pyRound1_natCast 100
    · rw [if_neg he]
      have hfull : (req.map normalizeSkill).filter
          (fun s => decide (s ∈ augmented_user_skills t us subs)) =
          req.map normalizeSkill :=
        List.filter_eq_self.mpr (fun a ha => decide_eq_true (hall a ha))
      rw [hfull]
      have hlen : ((req.map normalizeSkill).length : ℚ) ≠ 0 := by
        have hnil : req.map normalizeSkill ≠ [] := by
          intro hnil
          rw [hnil] at he
          exact he rfl
        exact_mod_cast Nat.pos_iff_ne_zero.mp (List.length_pos.mpr hnil)
      rw [div_self hlen]
      norm_num
      exact_mod_cast pyRound1_natCast 100
  · intro hdisj hne
    have hnone : ∀ s ∈ req.map normalizeSkill,
        ¬ s ∈ augmented_user_skills t us subs := by
      intro s hs hmem
      exact (Finset.disjoint_left.mp hdisj) (List.mem_toFinset.mpr hs)
        (List.mem_toFinset.mpr hmem)
    simp only [analyze_skills_gap]
    have he : ¬ ((req.map normalizeSkill).isEmpty = true) := by
      intro h
      exact hne (List.map_eq_nil_iff.mp (List.isEmpty_iff.mp h))
    rw [if_neg he]
    have hempty : (req.map normalizeSkill).filter
        (fun s => decide (s ∈ augmented_user_skills t us subs)) = [] := by
      rw [List.filter_eq_nil_iff]
      intro a ha
      simp only [decide_eq_true_eq]
      exact hnone a ha
    rw [hempty]
    simp only [List.length_nil, Nat.cast_zero, zero_div, zero_mul]
    exact_mod_cast pyRound1_natCast 0

/-- Witness for C5: a fully-covered requirement scores 100, a disjoint one
scores 0. -/
theorem analyze_skills_gap_partition_and_percentage_witness :
    (analyze_skills_gap [] ["Machine Learning"] "ML Engineer"
        ["machine learning"] none).skill_match_percentage = 100 ∧
    (analyze_skills_gap [] ["python"] "Barista" ["latte art"]
        none).skill_match_percentage = 0 :=
  ⟨(analyze_skills_gap_partition_and_percentage [] ["Machine Learning"]
      "ML Engineer" ["machine learning"] none).2.2.1 (by decide),
   (analyze_skills_gap_partition_and_percentage [] ["python"] "Barista"
      ["latte art"] none).2.2.2 (by decide) (by decide)⟩

/-! ## Risk assessor (`failure_warning_system.py`) -/

/-- The overall-risk record produced by
`FailureWarningSystem._calculate_overall_risk`. The `primary_concerns`
field is a further derivation (`_identify_primary_concerns`) no claim
touches, and is omitted. -/
structure OverallRisk where
  score : ℚ
  level : String
deriving DecidableEq, Repr

/-- `FailureWarningSystem._calculate_overall_risk`, applied to the `score`
fields of the three dimension risk results: weighted average with weights
academic 0.4 / interest 0.3 / stress 0.3, mapped to a level by the fixed
cut points 0.3 and 0.6. -/
def calculate_overall_risk (academic_score interest_score_ stress_score : ℚ) :
    OverallRisk :=
  let overall_score :=
    academic_score * 0.4 + interest_score_ * 0.3 + stress_score * 0.3
  { score := overall_score
    level :=
      if overall_score ≤ 0.3 then "low_risk"
      else if overall_score ≤ 0.6 then "moderate_risk"
      else "high_risk" }

/-- C8. The overall risk score is `0.4·academic + 0.3·interest + 0.3·stress`,
and the level is `low_risk` iff the score is ≤ 0.3, `moderate_risk` iff it
is in (0.3, 0.6], and `high_risk` iff it is > 0.6. -/
theorem calculate_overall_risk_formula_and_levels (a i s : ℚ) :
    (calculate_overall_risk a i s).score = 0.4 * a + 0.3 * i + 0.3 * s ∧
    ((calculate_overall_risk a i s).score ≤ 0.3 →
      (calculate_overall_risk a i s).level = "low_risk") ∧
    (0.3 < (calculate_overall_risk a i s).score →
      (calculate_overall_risk a i s).score ≤ 0.6 →
      (calculate_overall_risk a i s).level = "moderate_risk") ∧
    (0.6 < (calculate_overall_risk a i s).score →
      (calculate_overall_risk a i s).level = "high_risk") := by
  refine ⟨by simp only [calculate_overall_risk]; ring, ?_, ?_, ?_⟩
  · intro h
    simp only [calculate_overall_risk] at h ⊢
    rw [if_pos h]
  · intro h1 h2
    simp only [calculate_overall_risk] at h1 h2 ⊢
    rw [if_neg (by linarith), if_pos h2]
  · intro h
    simp only [calculate_overall_risk] at h ⊢
    rw [if_neg (by linarith), if_neg (by linarith)]

/-- Witness for C8 at the three concrete dimension scores
(0.2, 0.4, 0.6): overall = 0.38, a moderate risk. -/
theorem calculate_overall_risk_formula_and_levels_witness :
    (calculate_overall_risk 0.2 0.4 0.6).score = 0.38 ∧
    (calculate_overall_risk 0.2 0.4 0.6).level = "moderate_risk" :=
  ⟨by rw [(calculate_overall_risk_formula_and_levels 0.2 0.4 0.6).1]; norm_num,
   (calculate_overall_risk_formula_and_levels 0.2 0.4 0.6).2.2.1
    (by norm_num [calculate_overall_risk])
    (by norm_num [calculate_overall_risk])⟩

/-! ## Simulation metrics (`career_simulation.py`) -/

/-- One task of a career's `daily_schedule`. -/
structure SimTask where
  time : String
  task : String
  stress_level : ℤ
  duration : ℤ
deriving DecidableEq, Repr

/-- The stress histogram `{1: _, 2: _, 3: _, 4: _, 5: _}`. -/
structure StressDist where
  c1 : ℕ
  c2 : ℕ
  c3 : ℕ
  c4 : ℕ
  c5 : ℕ
deriving DecidableEq, Repr

/-- One step of `_calculate_stress_distribution`'s loop:
`distribution[stress_level] += 1`, a `KeyError` (`none`) when the level is
outside 1..5. -/
def bumpDist (d : StressDist) (level : ℤ) : Option StressDist :=
  if level = 1 then some { d with c1 := d.c1 + 1 }
  else if level = 2 then some { d with c2 := d.c2 + 1 }
  else if level = 3 then some { d with c3 := d.c3 + 1 }
  else if level = 4 then some { d with c4 := d.c4 + 1 }
  else if level = 5 then some { d with c5 := d.c5 + 1 }
  else none

/-- `CareerSimulation._calculate_stress_distribution`. -/
def calculate_stress_distribution (schedule : List SimTask) : Option StressDist :=
  schedule.foldlM (fun d task => bumpDist d task.stress_level) ⟨0, 0, 0, 0, 0⟩

/-- The record returned by `_calculate_work_intensity`. -/
structure WorkIntensity where
  total_work_minutes : ℤ
  average_intensity : ℚ
  max_continuous_work_minutes : ℤ
  work_life_balance_score : Option ℤ
deriving DecidableEq, Repr

/-- `CareerSimulation._calculate_work_life_balance_score`; `none` embeds the
`ZeroDivisionError` on an empty schedule. -/
def calculate_work_life_balance_score (schedule : List SimTask) : Option ℤ :=
  let high_stress_tasks := (schedule.filter (fun t => t.stress_level ≥ 4)).length
  let total_tasks := schedule.length
  let break_tasks := (schedule.filter (fun t => t.stress_level ≤ 1)).length
  if total_tasks = 0 then none
  else if (high_stress_tasks : ℚ) / (total_tasks : ℚ) > 0.4 then some 2
  else if (high_stress_tasks : ℚ) / (total_tasks : ℚ) > 0.2 then some 3
  else if (break_tasks : ℚ) / (total_tasks : ℚ) > 0.2 then some 4
  else some 3

/-- `CareerSimulation._calculate_work_intensity`. -/
def calculate_work_intensity (schedule : List SimTask) : WorkIntensity :=
  let total_duration : ℤ := (schedule.map (fun t => t.duration)).sum
  let total_stress_weighted_time : ℤ :=
    (schedule.map (fun t => t.duration * t.stress_level)).sum
  let avg_intensity : ℚ :=
    if total_duration > 0
    then (total_stress_weighted_time : ℚ) / (total_duration : ℚ) else 0
  let max_continuous_work := (schedule.foldl
    (fun (p : ℤ × ℤ) t =>
      if t.stress_level ≥ 2 then
        (max p.1 (p.2 + t.duration), p.2 + t.duration)
      else (p.1, 0)) (0, 0)).1
  { total_work_minutes := total_duration
    average_intensity := pyRound2 avg_intensity
    max_continuous_work_minutes := max_continuous_work
    work_life_balance_score := calculate_work_life_balance_score schedule }

theorem bumpDist_sum (d : StressDist) (level : ℤ)
    (h1 : 1 ≤ level) (h5 : level ≤ 5) :
    ∃ d2, bumpDist d level = some d2 ∧
      d2.c1 + d2.c2 + d2.c3 + d2.c4 + d2.c5 =
        d.c1 + d.c2 + d.c3 + d.c4 + d.c5 + 1 := by
  have : level = 1 ∨ level = 2 ∨ level = 3 ∨ level = 4 ∨ level = 5 := by omega
  rcases this with h | h | h | h | h <;> subst h <;>
    refine ⟨_, rfl, ?_⟩ <;> simp <;> omega

theorem stress_distribution_aux (schedule : List SimTask) (d : StressDist)
    (hs : ∀ t ∈ schedule, 1 ≤ t.stress_level ∧ t.stress_level ≤ 5) :
    ∃ d2, schedule.foldlM (fun d task => bumpDist d task.stress_level) d =
        some d2 ∧
      d2.c1 + d2.c2 + d2.c3 + d2.c4 + d2.c5 =
        d.c1 + d.c2 + d.c3 + d.c4 + d.c5 + schedule.length := by
  induction schedule generalizing d with
  | nil => exact ⟨d, rfl, by simp⟩
  | cons t ts ih =>
    obtain ⟨ht1, ht5⟩ := hs t (List.mem_cons_self t ts)
    obtain ⟨d1, hd1, hsum1⟩ := bumpDist_sum d t.stress_level ht1 ht5
    obtain ⟨d2, hd2, hsum2⟩ := ih d1 (fun u hu => hs u (List.mem_cons_of_mem t hu))
    refine ⟨d2, ?_, ?_⟩
    · rw [List.foldlM_cons, hd1]
      exact hd2
    · rw [hsum2, hsum1, List.length_cons]
      omega

/-- C7. For a non-empty schedule whose stress levels all lie in `[1,5]` and
whose total duration is positive, `average_intensity` is the
duration-weighted average stress `Σ dᵢ·sᵢ / Σ dᵢ` rounded to two decimals,
and the stress histogram exists (no `KeyError`) and its five counts sum to
the number of tasks. -/
theorem work_intensity_and_distribution (schedule : List SimTask)
    (_hne : schedule ≠ [])
    (hs : ∀ t ∈ schedule, 1 ≤ t.stress_level ∧ t.stress_level ≤ 5)
    (hd : 0 < (schedule.map (fun t => t.duration)).sum) :
    (calculate_work_intensity schedule).average_intensity =
      pyRound2 ((((schedule.map (fun t => t.duration * t.stress_level)).sum : ℤ) : ℚ) /
        (((schedule.map (fun t => t.duration)).sum : ℤ) : ℚ)) ∧
    ∃ d, calculate_stress_distribution schedule = some d ∧
      d.c1 + d.c2 + d.c3 + d.c4 + d.c5 = schedule.length := by
  constructor
  · simp only [calculate_work_intensity]
    rw [if_pos hd]
  · obtain ⟨d2, hfold, hsum⟩ :=
      stress_distribution_aux schedule ⟨0, 0, 0, 0, 0⟩ hs
    exact ⟨d2, hfold, by simpa using hsum⟩

/-- Witness for C7 at a concrete two-task schedule
(30 min at stress 2, 60 min at stress 4): average `10/3 ≈ 3.33`. -/
theorem work_intensity_and_distribution_witness :
    (calculate_work_intensity
      [{ time := "9:00 AM", task := "Code review", stress_level := 2, duration := 30 },
       { time := "10:00 AM", task := "Sprint planning", stress_level := 4, duration := 60 }]
      ).average_intensity =
      pyRound2 (((([({ time := "9:00 AM", task := "Code review", stress_level := 2, duration := 30 } : SimTask),
        { time := "10:00 AM", task := "Sprint planning", stress_level := 4, duration := 60 }].map
          (fun t => t.duration * t.stress_level)).sum : ℤ) : ℚ) /
        (((([({ time := "9:00 AM", task := "Code review", stress_level := 2, duration := 30 } : SimTask),
        { time := "10:00 AM", task := "Sprint planning", stress_level := 4, duration := 60 }].map
          (fun t => t.duration)).sum : ℤ) : ℚ))) ∧
    ∃ d, calculate_stress_distribution
      [{ time := "9:00 AM", task := "Code review", stress_level := 2, duration := 30 },
       { time := "10:00 AM", task := "Sprint planning", stress_level := 4, duration := 60 }] = some d ∧
      d.c1 + d.c2 + d.c3 + d.c4 + d.c5 = ([({ time := "9:00 AM", task := "Code review", stress_level := 2, duration := 30 } : SimTask),
       { time := "10:00 AM", task := "Sprint planning", stress_level := 4, duration := 60 }]).length :=
  work_intensity_and_distribution _ (by decide) (by decide) (by decide)

/-! ## Personality test (`personality_test.py`) -/

/-- One entry of `PersonalityTest._load_questions` (the fields the
calculation reads: dimension and weight; all twelve weights are 1). -/
structure PTQuestion where
  dimension : String
  weight : ℤ
deriving DecidableEq, Repr

/-- The twelve fixed questions, in order (ids 1..12). -/
def pt_questions : List PTQuestion :=
  [⟨"extraversion", 1⟩, ⟨"extraversion", 1⟩, ⟨"sensing", 1⟩, ⟨"sensing", 1⟩,
   ⟨"thinking", 1⟩, ⟨"thinking", 1⟩, ⟨"judging", 1⟩, ⟨"judging", 1⟩,
   ⟨"extraversion", 1⟩, ⟨"intuition", 1⟩, ⟨"feeling", 1⟩, ⟨"perceiving", 1⟩]

/-- The eight dimension scores. -/
structure PTScores where
  extraversion : ℤ
  introversion : ℤ
  sensing : ℤ
  intuition : ℤ
  thinking : ℤ
  feeling : ℤ
  judging : ℤ
  perceiving : ℤ
deriving DecidableEq, Repr

/-- `PersonalityTest._get_opposite_dimension`. -/
def get_opposite_dimension (dimension : String) : String :=
  if dimension = "extraversion" then "introversion"
  else if dimension = "sensing" then "intuition"
  else if dimension = "thinking" then "feeling"
  else if dimension = "judging" then "perceiving"
  else dimension

/-- `scores[dimension] += v`. Every dimension string reaching this update
comes from the fixed question table or `get_opposite_dimension`, so the
fall-through branch (Python would raise `KeyError`) is unreachable. -/
def addScore (sc : PTScores) (dimension : String) (v : ℤ) : PTScores :=
  if dimension = "extraversion" then { sc with extraversion := sc.extraversion + v }
  else if dimension = "introversion" then { sc with introversion := sc.introversion + v }
  else if dimension = "sensing" then { sc with sensing := sc.sensing + v }
  else if dimension = "intuition" then { sc with intuition := sc.intuition + v }
  else if dimension = "thinking" then { sc with thinking := sc.thinking + v }
  else if dimension = "feeling" then { sc with feeling := sc.feeling + v }
  else if dimension = "judging" then { sc with judging := sc.judging + v }
  else if dimension = "perceiving" then { sc with perceiving := sc.perceiving + v }
  else sc

/-- The descriptor of a personality type. -/
structure PTypeInfo where
  name : String
  traits : List String
  careers : List String
  description : String
deriving DecidableEq, Repr

/-- `PersonalityTest._load_personality_types`. -/
def personality_types : List (String × PTypeInfo) :=
  [("INTJ", { name := "The Architect"
              traits := ["analytical", "strategic", "independent"]
              careers := ["Software Engineer", "Data Scientist", "Research Scientist"]
              description := "Strategic thinkers who love complex problems" }),
   ("ENFP", { name := "The Campaigner"
              traits := ["creative", "enthusiastic", "collaborative"]
              careers := ["UX Designer", "Marketing Manager", "Teacher"]
              description := "Creative and enthusiastic people-focused individuals" }),
   ("ISTJ", { name := "The Logistician"
              traits := ["detail_oriented", "organized", "reliable"]
              careers := ["Accountant", "Project Manager", "Engineer"]
              description := "Practical and fact-minded, reliable individuals" }),
   ("ESTP", { name := "The Entrepreneur"
              traits := ["outgoing", "adaptable", "practical"]
              careers := ["Sales Manager", "Marketing Manager", "Consultant"]
              description := "Energetic and adaptable, great at improvising" })]

/-- The record returned by `calculate_personality`. -/
structure PTResult where
  type : String
  name : String
  traits : List String
  suggested_careers : List String
  description : String
  scores : PTScores
deriving DecidableEq, Repr

/-- `PersonalityTest.calculate_personality`. The Python loop
`for i, answer in enumerate(answers): if i < len(self.questions): ...`
is the fold over `answers.zip pt_questions`. On the four first-letter
dimensions it adds `answer·weight` to the dimension and
`(6 − answer)·weight` to its opposite; other dimensions are skipped. -/
def calculate_personality (answers : List ℤ) : PTResult :=
  let scores := (answers.zip pt_questions).foldl
    (fun sc p =>
      let answer := p.1
      let question := p.2
      if question.dimension = "extraversion" ∨ question.dimension = "sensing" ∨
          question.dimension = "thinking" ∨ question.dimension = "judging" then
        let sc := addScore sc question.dimension (answer * question.weight)
        addScore sc (get_opposite_dimension question.dimension)
          ((6 - answer) * question.weight)
      else sc)
    ⟨0, 0, 0, 0, 0, 0, 0, 0⟩
  let personality_type :=
    (if scores.extraversion > scores.introversion then "E" else "I") ++
    (if scores.sensing > scores.intuition then "S" else "N") ++
    (if scores.thinking > scores.feeling then "T" else "F") ++
    (if scores.judging > scores.perceiving then "J" else "P")
  let type_info := (personality_types.lookup personality_type).getD
    { name := "Unique Type"
      traits := ["unique", "individual"]
      careers := ["Various careers"]
      description := "A unique personality combination" }
  { type := personality_type
    name := type_info.name
    traits := type_info.traits
    suggested_careers := type_info.careers
    description := type_info.description
    scores := scores }

set_option maxHeartbeats 1000000 in
/-- C10. `calculate_personality` never reads the answers to questions 10,
11 and 12 (the intuition, feeling and perceiving questions): two length-12
answer vectors agreeing on positions 1–9 produce identical results — type,
name, traits, suggested careers, description and all eight scores. -/
theorem calculate_personality_ignores_last_three
    (a1 a2 a3 a4 a5 a6 a7 a8 a9 x10 x11 x12 y10 y11 y12 : ℤ) :
    calculate_personality [a1, a2, a3, a4, a5, a6, a7, a8, a9, x10, x11, x12] =
      calculate_personality [a1, a2, a3, a4, a5, a6, a7, a8, a9, y10, y11, y12] := by
  simp [calculate_personality, pt_questions, addScore, get_opposite_dimension]

/-! ## Role-model service (`role_model_service.py`) -/

/-- One entry of the `career_tips` table (the fields `get_daily_tip`
reads). -/
structure Tip where
  title : String
  tip : String
  category : String
  career_focus : List String
deriving DecidableEq, Repr

/-- The professional-mode tip categories. -/
def professional_categories : List String :=
  ["career_advancement", "leadership", "industry_transition", "networking"]

/-- `RoleModelService.get_daily_tip`.

Python's built-in `hash` on strings is salted per process
(`PYTHONHASHSEED`), so the embedding takes the process's string-hash
function `pyHash` as a parameter: two different processes (or two runs
after a restart) supply two different such functions. `randChoice` stands
for `random.choice` on the anonymous path; `today` is
`datetime.now().strftime('%Y-%m-%d')`. `none` on the `user_id` path embeds
the `ZeroDivisionError` of `% len(relevant_tips)` when no tips remain
(Python `%` on a positive length agrees with `Int.emod`). -/
def get_daily_tip (pyHash : String → ℤ) (randChoice : List Tip → Option Tip)
    (career_tips : List Tip) (career_focus : Option String)
    (user_id : Option String) (mode : String) (today : String) : Option Tip :=
  let relevant_tips :=
    match career_focus with
    | some cf =>
      if cf ≠ "" then
        career_tips.filter (fun t =>
          decide (cf ∈ t.career_focus) || decide ("All careers" ∈ t.career_focus))
      else career_tips
    | none => career_tips
  let relevant_tips :=
    if mode = "professional" then
      relevant_tips.filter (fun t => decide (t.category ∈ professional_categories))
    else relevant_tips
  match user_id with
  | some uid =>
    if uid ≠ "" then
      if relevant_tips.length = 0 then none
      else
        let seed := (pyHash (uid ++ "_" ++ today)).emod relevant_tips.length
        relevant_tips.get? seed.toNat
    else if ¬ relevant_tips.isEmpty then randChoice relevant_tips
    else career_tips.get? 0
  | none =>
    if ¬ relevant_tips.isEmpty then randChoice relevant_tips
    else career_tips.get? 0

/-- C9 (code evaluated at the failing input). The daily-tip index is
derived from Python's per-process salted string hash: for the same
`user_id` `"u1"` and the same date `"2026-10-12"`, a process whose hash
maps the key to 0 serves the first tip while a process whose hash maps it
to 1 serves the second — the selection is *not* stable across processes
and restarts, contradicting the claim (the two tips differ). -/
theorem daily_tip_depends_on_process_hash :
    get_daily_tip (fun _ => 0) (fun _ => none)
      [{ title := "Network early", tip := "Meet people in your field.",
         category := "networking", career_focus := ["All careers"] },
       { title := "Keep learning", tip := "Take one course per quarter.",
         category := "skill_development", career_focus := ["All careers"] }]
      none (some "u1") "student" "2026-10-12" =
      some { title := "Network early", tip := "Meet people in your field.",
             category := "networking", career_focus := ["All careers"] } ∧
    get_daily_tip (fun _ => 1) (fun _ => none)
      [{ title := "Network early", tip := "Meet people in your field.",
         category := "networking", career_focus := ["All careers"] },
       { title := "Keep learning", tip := "Take one course per quarter.",
         category := "skill_development", career_focus := ["All careers"] }]
      none (some "u1") "student" "2026-10-12" =
      some { title := "Keep learning", tip := "Take one course per quarter.",
             category := "skill_development", career_focus := ["All careers"] } ∧
    ({ title := "Network early", tip := "Meet people in your field.",
       category := "networking", career_focus := ["All careers"] } : Tip) ≠
      { title := "Keep learning", tip := "Take one course per quarter.",
        category := "skill_development", career_focus := ["All careers"] } := by
  refine ⟨?_, ?_, ?_⟩ <;> decide

/-! ## Comparison engine (`career_comparison.py`) -/

/-- Value of a digit run (`int`/`float` digit parsing). -/
def digitsToNat (cs : List Char) : ℕ :=
  cs.foldl (fun acc c => acc * 10 + (c.toNat - 48)) 0

/-- Python `float(s)` on an unsigned body: `digits [. digits]`, at least
one digit in total (Python accepts `"1."` and `".5"`). Exponents, `inf`,
`nan` and underscore separators never occur in the salary data and are
treated as parse failures (`none` = `ValueError`). -/
def pyFloatUnsigned (cs : List Char) : Option ℚ :=
  match cs.splitOn '.' with
  | [intPart] =>
    if intPart ≠ [] ∧ intPart.all Char.isDigit then some (digitsToNat intPart : ℚ)
    else none
  | [intPart, fracPart] =>
    if (intPart ++ fracPart) ≠ [] ∧ (intPart ++ fracPart).all Char.isDigit then
      some ((digitsToNat intPart : ℚ) +
        (digitsToNat fracPart : ℚ) / (10 : ℚ) ^ fracPart.length)
    else none
  | _ => none

/-- Python `float(s)` with an optional sign. -/
def pyFloat (s : String) : Option ℚ :=
  match s.toList with
  | '+' :: rest => pyFloatUnsigned rest
  | '-' :: rest => (pyFloatUnsigned rest).map (fun q => -q)
  | cs => pyFloatUnsigned cs

/-- Python `str.replace`: scan left to right, replacing non-overlapping
occurrences of `pattern`. Structural fuel (initialised to the string
length, an upper bound on the number of steps for a non-empty pattern)
keeps the definition kernel-reducible. -/
def replaceAux (pattern replacement : List Char) : ℕ → List Char → List Char
  | 0, cs => cs
  | _ + 1, [] => []
  | fuel + 1, c :: rest =>
    if pattern.isPrefixOf (c :: rest) then
      replacement ++ replaceAux pattern replacement fuel
        ((c :: rest).drop pattern.length)
    else c :: replaceAux pattern replacement fuel rest

/-- Python `s.replace(pattern, replacement)` (the embedded code never
passes an empty pattern). -/
def strReplace (s pattern replacement : String) : String :=
  if pattern = "" then s
  else String.mk (replaceAux pattern.toList replacement.toList
    s.toList.length s.toList)

/-- `CareerComparison._normalize_salary`. The `'â‚¹'` pattern reproduces the
source's mojibake spelling of the rupee sign. Falsy (`""`) or `"N/A"`
input gives 0; ranges average their bounds; `lakh`/`l` notation scales by
100,000; any parse failure (`except`) gives 0. -/
def normalize_salary (salary_str : String) : ℤ :=
  if salary_str = "" ∨ salary_str = "N/A" then 0
  else
    let clean_salary := strReplace (strReplace (strReplace
      (strReplace salary_str "$" "") "â‚¹" "") "," "") " " ""
    if strContains "-" clean_salary then
      let parts := clean_salary.toList.splitOn '-'
      match pyFloat (String.mk (parts.getD 0 [])),
          pyFloat (String.mk (parts.getD 1 [])) with
      | some low, some high => pyInt ((low + high) / 2)
      | _, _ => 0
    else if strContains "lakh" (strLower salary_str) ||
        strContains "l" (strLower clean_salary) then
      match pyFloat (strReplace (strReplace (strLower clean_salary)
          "lakh" "") "l" "") with
      | some v => pyInt (v * 100000)
      | none => 0
    else
      match pyFloat clean_salary with
      | some v => pyInt v
      | none => 0

/-- `CareerComparison._extract_growth_rate`, inner scan: the value of the
first match of `(\d+(?:\.\d+)?)%?` — the leftmost maximal digit run, with
a fractional part when `.` plus at least one digit follows. -/
def extract_growth_from : List Char → ℚ
  | [] => 0
  | c :: rest =>
    if c.isDigit then
      let intRun := (c :: rest).takeWhile Char.isDigit
      let after := (c :: rest).dropWhile Char.isDigit
      match after with
      | '.' :: rest2 =>
        let fracRun := rest2.takeWhile Char.isDigit
        if fracRun.isEmpty then (digitsToNat intRun : ℚ)
        else (digitsToNat intRun : ℚ) +
          (digitsToNat fracRun : ℚ) / (10 : ℚ) ^ fracRun.length
      | _ => (digitsToNat intRun : ℚ)
    else extract_growth_from rest

/-- `CareerComparison._extract_growth_rate`. -/
def extract_growth_rate (growth_str : String) : ℚ :=
  if growth_str = "" ∨ growth_str = "N/A" then 0
  else extract_growth_from growth_str.toList

/-- `CareerComparison._get_stress_level_score`: keyword table, default 3. -/
def get_stress_level_score (stress_level : String) : ℤ :=
  let s := strLower stress_level
  if s = "low" then 1
  else if s = "medium-low" then 2
  else if s = "medium" then 3
  else if s = "medium-high" then 4
  else if s = "high" then 5
  else 3

/-- `CareerComparison._get_work_life_balance_score`: substring keyword
bands, default 3. -/
def get_work_life_balance_score (balance_desc : String) : ℤ :=
  let b := strLower balance_desc
  if strContains "excellent" b || strContains "great" b then 5
  else if strContains "good" b || strContains "flexible" b then 4
  else if strContains "moderate" b || strContains "balanced" b then 3
  else if strContains "challenging" b || strContains "demanding" b then 2
  else if strContains "poor" b || strContains "intense" b then 1
  else 3

/-- The fields of a loaded career record that `compare_careers` reads
(`Option` models `dict.get` absence; `india_salary` presence doubles as
the `'india_salary' in career_data` test). -/
structure CareerRec where
  median_salary : Option String
  india_salary : Option String
  growth_rate : Option String
  required_skills : List String
deriving DecidableEq, Repr

/-- The `reality_check` sub-record of a career's reality-check entry
(the two fields `compare_careers` reads; the `.get` chains' defaults are
applied at the use site). -/
structure RealityRec where
  stress_level : Option String
  work_life_balance : Option String
deriving DecidableEq, Repr

/-- One row of `comparison_data["careers"]` (the numeric fields that feed
`_calculate_rankings`; the echoed display strings are omitted). -/
structure CompCareer where
  name : String
  salary_numeric : ℤ
  stress_score : ℤ
  work_life_score : ℤ
  growth_numeric : ℚ
  skills_complexity : ℕ
deriving DecidableEq, Repr

/-- `comparison_data["rankings"]`. -/
structure Rankings where
  salary : List String
  stress_level : List String
  work_life_balance : List String
  growth_rate : List String
  skills_complexity : List String
deriving DecidableEq, Repr

/-- The result of `compare_careers`: a validation-error object or the
comparison payload. -/
inductive CompareResult where
  | error (msg : String)
  | ok (careers : List CompCareer) (rankings : Rankings)
deriving DecidableEq, Repr

/-- The body of `compare_careers`' per-name loop: `None` embeds the
`continue` on a name absent from the careers table. -/
def build_comp_career (careers_data : List (String × CareerRec))
    (reality_data : List (String × RealityRec)) (region : String)
    (career_name : String) : Option CompCareer :=
  match careers_data.lookup career_name with
  | none => none
  | some career_data =>
    let reality_check := reality_data.lookup career_name
    let salary :=
      if region = "india" ∧ career_data.india_salary.isSome then
        career_data.india_salary.getD "N/A"
      else career_data.median_salary.getD "N/A"
    let stress_level := (reality_check.bind (fun r => r.stress_level)).getD "Medium"
    let work_life_balance :=
      (reality_check.bind (fun r => r.work_life_balance)).getD "Moderate"
    some { name := career_name
           salary_numeric := normalize_salary salary
           stress_score := get_stress_level_score stress_level
           work_life_score := get_work_life_balance_score work_life_balance
           growth_numeric := extract_growth_rate (career_data.growth_rate.getD "0%")
           skills_complexity := min 5 (max 1 (career_data.required_skills.length / 2)) }

/-- `CareerComparison._calculate_rankings`: five stable `sorted(...)`
passes (salary, balance, growth descending; stress, complexity ascending),
each projected to career names. -/
def calculate_rankings (careers : List CompCareer) : Rankings :=
  { salary := (careers.mergeSort
      (fun a b => decide (b.salary_numeric ≤ a.salary_numeric))).map (fun c => c.name)
    stress_level := (careers.mergeSort
      (fun a b => decide (a.stress_score ≤ b.stress_score))).map (fun c => c.name)
    work_life_balance := (careers.mergeSort
      (fun a b => decide (b.work_life_score ≤ a.work_life_score))).map (fun c => c.name)
    growth_rate := (careers.mergeSort
      (fun a b => decide (b.growth_numeric ≤ a.growth_numeric))).map (fun c => c.name)
    skills_complexity := (careers.mergeSort
      (fun a b => decide (a.skills_complexity ≤ b.skills_complexity))).map (fun c => c.name) }

/-- `CareerComparison.compare_careers`. -/
def compare_careers (careers_data : List (String × CareerRec))
    (reality_data : List (String × RealityRec)) (career_names : List String)
    (region : String) : CompareResult :=
  if career_names.length < 2 then
    .error "Please select at least 2 careers to compare"
  else if career_names.length > 5 then
    .error "Maximum 5 careers can be compared at once"
  else
    let careers := career_names.filterMap
      (build_comp_career careers_data reality_data region)
    .ok careers (calculate_rankings careers)

/-- C6, counterexample. An accepted two-name input whose names are not in
the careers table produces no validation error, yet every ranking list is
empty — not a permutation of the input career names (unknown names are
silently skipped by the `continue` in the loop). -/
theorem compare_careers_unknown_names_not_perm :
    compare_careers
      [("Software Engineer",
        { median_salary := some "$110,000", india_salary := none,
          growth_rate := some "22%",
          required_skills := ["programming", "problem_solving",
            "logical_thinking", "mathematics"] })]
      [] ["Astronaut", "Dragon Tamer"] "global" =
      CompareResult.ok []
        { salary := [], stress_level := [], work_life_balance := [],
          growth_rate := [], skills_complexity := [] } ∧
    ¬ (([] : List String).Perm ["Astronaut", "Dragon Tamer"]) := by
  constructor
  · simp only [compare_careers]
    rw [if_neg (by decide), if_neg (by decide)]
    rw [show (["Astronaut", "Dragon Tamer"].filterMap
      (build_comp_career
        [("Software Engineer",
          { median_salary := some "$110,000", india_salary := none,
            growth_rate := some "22%",
            required_skills := ["programming", "problem_solving",
              "logical_thinking", "mathematics"] })] [] "global")) = [] from by
      simp [build_comp_career, List.lookup]]
    simp [calculate_rankings]
  · intro h
    have := h.length_eq
    simp at this

theorem build_comp_career_names (cd : List (String × CareerRec))
    (rd : List (String × RealityRec)) (region : String) (names : List String) :
    (names.filterMap (build_comp_career cd rd region)).map (fun c => c.name) =
      names.filter (fun n => (cd.lookup n).isSome) := by
  induction names with
  | nil => rfl
  | cons n ns ih =>
    rcases hl : cd.lookup n with _ | rec
    · simp [List.filterMap_cons, List.filter_cons, build_comp_career, hl, ih]
    · simp [List.filterMap_cons, List.filter_cons, build_comp_career, hl, ih]

/-- C6, amended. `compare_careers` returns a validation error exactly when
the input has fewer than 2 or more than 5 names; for every accepted input,
each of the five ranking lists (salary, stress_level, work_life_balance,
growth_rate, skills_complexity) is a permutation of the sublist of input
career names that are present in the careers table — a permutation of the
full input only when every name is known, since unknown names are silently
skipped. -/
theorem compare_careers_validation_and_rankings
    (cd : List (String × CareerRec)) (rd : List (String × RealityRec))
    (names : List String) (region : String) :
    ((∃ msg, compare_careers cd rd names region = CompareResult.error msg) ↔
      (names.length < 2 ∨ 5 < names.length)) ∧
    (2 ≤ names.length → names.length ≤ 5 →
      ∃ careers, compare_careers cd rd names region =
          CompareResult.ok careers (calculate_rankings careers) ∧
        careers.map (fun c => c.name) =
          names.filter (fun n => (cd.lookup n).isSome) ∧
        (calculate_rankings careers).salary.Perm
          (names.filter (fun n => (cd.lookup n).isSome)) ∧
        (calculate_rankings careers).stress_level.Perm
          (names.filter (fun n => (cd.lookup n).isSome)) ∧
        (calculate_rankings careers).work_life_balance.Perm
          (names.filter (fun n => (cd.lookup n).isSome)) ∧
        (calculate_rankings careers).growth_rate.Perm
          (names.filter (fun n => (cd.lookup n).isSome)) ∧
        (calculate_rankings careers).skills_complexity.Perm
          (names.filter (fun n => (cd.lookup n).isSome))) := by
  constructor
  · constructor
    · rintro ⟨msg, hmsg⟩
      by_contra hnot
      push_neg at hnot
      obtain ⟨h2, h5⟩ := hnot
      simp only [compare_careers] at hmsg
      rw [if_neg (by omega), if_neg (by omega)] at hmsg
      exact CompareResult.noConfusion hmsg
    · intro h
      rcases h with h | h
      · exact ⟨"Please select at least 2 careers to compare",
          by simp only [compare_careers]; rw [if_pos h]⟩
      · exact ⟨"Maximum 5 careers can be compared at once",
          by simp only [compare_careers]; rw [if_neg (by omega), if_pos (by omega)]⟩
  · intro h2 h5
    refine ⟨names.filterMap (build_comp_career cd rd region), ?_, ?_, ?_, ?_, ?_, ?_, ?_⟩
    · simp only [compare_careers]
      rw [if_neg (by omega), if_neg (by omega)]
    · exact build_comp_career_names cd rd region names
    all_goals
      simp only [calculate_rankings]
      rw [← build_comp_career_names cd rd region names]
      exact (List.mergeSort_perm _ _).map (fun c : CompCareer => c.name)

/-- Witness for the amended C6 at a concrete accepted input. -/
theorem compare_careers_validation_and_rankings_witness :
    ∃ careers, compare_careers
        [("Software Engineer",
          { median_salary := some "$110,000", india_salary := none,
            growth_rate := some "22%",
            required_skills := ["programming", "problem_solving",
              "logical_thinking", "mathematics"] })]
        [] ["Software Engineer", "Astronaut"] "global" =
        CompareResult.ok careers (calculate_rankings careers) ∧
      careers.map (fun c => c.name) =
        (["Software Engineer", "Astronaut"].filter (fun n =>
          (([("Software Engineer",
            { median_salary := some "$110,000", india_salary := none,
              growth_rate := some "22%",
              required_skills := ["programming", "problem_solving",
                "logical_thinking", "mathematics"] })] :
            List (String × CareerRec)).lookup n).isSome)) ∧
      (calculate_rankings careers).salary.Perm
        (["Software Engineer", "Astronaut"].filter (fun n =>
          (([("Software Engineer",
            { median_salary := some "$110,000", india_salary := none,
              growth_rate := some "22%",
              required_skills := ["programming", "problem_solving",
                "logical_thinking", "mathematics"] })] :
            List (String × CareerRec)).lookup n).isSome)) ∧
      (calculate_rankings careers).stress_level.Perm
        (["Software Engineer", "Astronaut"].filter (fun n =>
          (([("Software Engineer",
            { median_salary := some "$110,000", india_salary := none,
              growth_rate := some "22%",
              required_skills := ["programming", "problem_solving",
                "logical_thinking", "mathematics"] })] :
            List (String × CareerRec)).lookup n).isSome)) ∧
      (calculate_rankings careers).work_life_balance.Perm
        (["Software Engineer", "Astronaut"].filter (fun n =>
          (([("Software Engineer",
            { median_salary := some "$110,000", india_salary := none,
              growth_rate := some "22%",
              required_skills := ["programming", "problem_solving",
                "logical_thinking", "mathematics"] })] :
            List (String × CareerRec)).lookup n).isSome)) ∧
      (calculate_rankings careers).growth_rate.Perm
        (["Software Engineer", "Astronaut"].filter (fun n =>
          (([("Software Engineer",
            { median_salary := some "$110,000", india_salary := none,
              growth_rate := some "22%",
              required_skills := ["programming", "problem_solving",
                "logical_thinking", "mathematics"] })] :
            List (String × CareerRec)).lookup n).isSome)) ∧
      (calculate_rankings careers).skills_complexity.Perm
        (["Software Engineer", "Astronaut"].filter (fun n =>
          (([("Software Engineer",
            { median_salary := some "$110,000", india_salary := none,
              growth_rate := some "22%",
              required_skills := ["programming", "problem_solving",
                "logical_thinking", "mathematics"] })] :
            List (String × CareerRec)).lookup n).isSome)) :=
  (compare_careers_validation_and_rankings
    [("Software Engineer",
      { median_salary := some "$110,000", india_salary := none,
        growth_rate := some "22%",
        required_skills := ["programming", "problem_solving",
          "logical_thinking", "mathematics"] })]
    [] ["Software Engineer", "Astronaut"] "global").2
    (by decide) (by decide)
